import Mathlib

/-!
Shallow embedding of `src/contracts/FundingRoundFactory.sol` (Solidity ^0.6.2).

Addresses (including `FundingRound` contract handles) are modelled as `Nat`,
with `0` playing the role of `address(0)`.  `uint256` arithmetic is modelled
as `Nat` with explicit reduction modulo `2^256` where the source performs
unchecked EVM arithmetic.  Solidity `revert` is modelled with `Except`: a
call that reverts produces `Except.error e` and yields no successor state,
which is exactly the EVM's all-or-nothing rollback of the call's writes.

Round-instance deployment (`new FundingRound(this, token)`) is modelled by a
freshness counter `nextRoundId` in the state: each deployment hands out the
current counter value as the new (nonzero) contract handle and increments
the counter.  Events are accumulated in an append-only log.

The source's `setToken` does not compile (it emits `NewToken(_coordinator)`
where `_coordinator` is not in scope), so it is left out of the model; it
does not touch any state the claims mention.
-/

namespace FRF

/-- Word size of the EVM's `uint256` arithmetic. -/
def WORD : Nat := 2 ^ 256

/-- Events declared by `FundingRoundFactory` (plus the `OwnershipTransferred`
event inherited from OpenZeppelin `Ownable`).  The contract declares both a
zero-argument `RoundFinalized()` and a one-argument `RoundFinalized(address)`;
only the one-argument overload is ever emitted. -/
inductive Event
  | NewToken (token : Nat)
  | NewRound (round : Nat)
  | RoundFinalizedNoArg
  | CoordinatorTransferred (c : Nat)
  | WitnessTransferred (w : Nat)
  | NewRoundDuration (d : Nat)
  | MaciSet (m : Nat)
  | NewMaciRequired
  | RoundFinalized (round : Nat)
  | OwnershipTransferred (prev next : Nat)
  deriving DecidableEq, Repr

/-- Revert reasons occurring in the source (the `require`/`revert` strings of
`FundingRoundFactory` and the `onlyOwner` check of `Ownable`). -/
inductive Err
  | invalidEndRoundConditions
  | noCoordinator
  | invalidTransferConditions
  | senderNotCoordinator
  | senderNotWitness
  | senderNotOwner
  deriving DecidableEq, Repr

/-- Contract storage of `FundingRoundFactory`, together with the deployment
freshness counter `nextRoundId` and the emitted-event log. -/
structure State where
  owner : Nat
  coordinator : Nat
  maci : Nat
  token : Nat
  witness : Nat
  currentRound : Nat
  previousRound : Nat
  newMaci : Bool
  previousRoundValid : Bool
  newCoordinatorSet : Bool
  duration : Nat
  roundEndBlockNumber : Nat
  maciByRound : List (Nat × Nat)
  nextRoundId : Nat
  events : List Event
  deriving DecidableEq, Repr

/-- Storage right after `Ownable`'s constructor ran for deployer `deployer`
and before the body of the `FundingRoundFactory` constructor: every scalar
slot is zero, every bool is false, the mapping is empty.  Handles `0` are the
null `FundingRound` references; fresh handles start at `1`. -/
def initState (deployer : Nat) : State :=
  { owner := deployer
    coordinator := 0
    maci := 0
    token := 0
    witness := 0
    currentRound := 0
    previousRound := 0
    newMaci := false
    previousRoundValid := false
    newCoordinatorSet := false
    duration := 0
    roundEndBlockNumber := 0
    maciByRound := []
    nextRoundId := 1
    events := [Event.OwnershipTransferred 0 deployer] }

/-- `getMaci(round)`: the `maciByRound` mapping lookup, defaulting to the
zero address as a Solidity mapping does. -/
def getMaci (s : State) (round : Nat) : Nat :=
  match s.maciByRound.find? (fun p => p.1 = round) with
  | some p => p.2
  | none => 0

/-- `endRound()` at ledger clock `blockNumber` (the source's `block.number`).
Deploys a fresh round, shifts `previousRound := currentRound`, installs the
new round as current, emits `NewRound`, and sets
`roundEndBlockNumber := block.number + duration` with the source's unchecked
(wrapping) `uint256` addition; otherwise reverts. -/
def endRound (s : State) (blockNumber : Nat) : Except Err State :=
  if s.roundEndBlockNumber ≤ blockNumber ∨ s.newCoordinatorSet = true ∨ s.coordinator = 0 then
    let nextRound := s.nextRoundId
    Except.ok { s with
      nextRoundId := s.nextRoundId + 1
      previousRound := s.currentRound
      currentRound := nextRound
      events := s.events ++ [Event.NewRound nextRound]
      roundEndBlockNumber := (blockNumber + s.duration) % WORD }
  else
    Except.error Err.invalidEndRoundConditions

/-- `setMACI(_maci)`, `onlyWitness`: overwrite `maci`, set `newMaci := true`,
emit `MaciSet`.  (The source never writes the `maciByRound` mapping here.) -/
def setMACI (s : State) (sender m : Nat) : Except Err State :=
  if sender = s.witness then
    Except.ok { s with
      maci := m
      newMaci := true
      events := s.events ++ [Event.MaciSet m] }
  else
    Except.error Err.senderNotWitness

/-- `transferMatchingFunds()`, `onlyOwner`: the three-way finalization gate.
Returns the source's `allDone` boolean alongside the successor state. -/
def transferMatchingFunds (s : State) (sender : Nat) : Except Err (State × Bool) :=
  if sender = s.owner then
    if s.coordinator ≠ 0 then
      if s.newCoordinatorSet = true then
        Except.ok ({ s with
          newCoordinatorSet := false
          newMaci := false
          previousRoundValid := false
          events := s.events ++ [Event.NewMaciRequired] }, false)
      else if s.newMaci = true ∧ s.previousRoundValid = true then
        Except.ok ({ s with
          events := s.events ++ [Event.RoundFinalized s.previousRound]
          newMaci := false }, true)
      else
        Except.error Err.invalidTransferConditions
    else
      Except.error Err.noCoordinator
  else
    Except.error Err.senderNotOwner

/-- `setCoordinator(_coordinator)`, `onlyOwner`: overwrite the coordinator,
set `newCoordinatorSet := true`, emit `CoordinatorTransferred`, then call
`endRound()` (whose revert, were it possible, would roll back the whole call). -/
def setCoordinator (s : State) (sender c blockNumber : Nat) : Except Err State :=
  if sender = s.owner then
    endRound { s with
      coordinator := c
      newCoordinatorSet := true
      events := s.events ++ [Event.CoordinatorTransferred c] } blockNumber
  else
    Except.error Err.senderNotOwner

/-- `setWitness(_witness)`, `onlyOwner`. -/
def setWitness (s : State) (sender w : Nat) : Except Err State :=
  if sender = s.owner then
    Except.ok { s with
      witness := w
      events := s.events ++ [Event.WitnessTransferred w] }
  else
    Except.error Err.senderNotOwner

/-- `setRoundDuration(_duration)`, `onlyOwner`. -/
def setRoundDuration (s : State) (sender d : Nat) : Except Err State :=
  if sender = s.owner then
    Except.ok { s with
      duration := d
      events := s.events ++ [Event.NewRoundDuration d] }
  else
    Except.error Err.senderNotOwner

/-- `coordinatorQuit()`, `onlyCoordinator`: vacate the coordinator role and
call `endRound()`. -/
def coordinatorQuit (s : State) (sender blockNumber : Nat) : Except Err State :=
  if sender = s.coordinator then
    endRound { s with
      coordinator := 0
      events := s.events ++ [Event.CoordinatorTransferred 0] } blockNumber
  else
    Except.error Err.senderNotCoordinator

/-- `witnessQuit()`, `onlyWitness`: vacate the witness role and clear the
pending attestation flag. -/
def witnessQuit (s : State) (sender : Nat) : Except Err State :=
  if sender = s.witness then
    Except.ok { s with
      witness := 0
      events := s.events ++ [Event.WitnessTransferred 0]
      newMaci := false }
  else
    Except.error Err.senderNotWitness

/-- `transferOwnership(newOwner)` inherited from `Ownable`. -/
def transferOwnership (s : State) (sender o : Nat) : Except Err State :=
  if sender = s.owner then
    if o ≠ 0 then
      Except.ok { s with
        owner := o
        events := s.events ++ [Event.OwnershipTransferred s.owner o] }
    else
      Except.error Err.senderNotOwner
  else
    Except.error Err.senderNotOwner

/-- `renounceOwnership()` inherited from `Ownable`. -/
def renounceOwnership (s : State) (sender : Nat) : Except Err State :=
  if sender = s.owner then
    Except.ok { s with
      owner := 0
      events := s.events ++ [Event.OwnershipTransferred s.owner 0] }
  else
    Except.error Err.senderNotOwner

/-- The constructor body: `Ownable` has set `owner := deployer`; then
`setCoordinator(_firstCoordinator)` (which itself calls `endRound()`)
followed by a second explicit `endRound()`, both at the deployment block. -/
def constructorRun (deployer firstCoordinator blockNumber : Nat) : Except Err State :=
  match setCoordinator (initState deployer) deployer firstCoordinator blockNumber with
  | Except.error e => Except.error e
  | Except.ok s1 => endRound s1 blockNumber

/-- Concrete reachable-shaped storage used to instantiate the theorems below:
owner `1`, coordinator `3`, witness `5`, two rounds already deployed. -/
def stBase : State :=
  { initState 1 with
    coordinator := 3
    witness := 5
    currentRound := 2
    previousRound := 1
    nextRoundId := 3 }

/-- `stBase` with a pending coordinator change, a pending attestation and a
valid previous round: the override state for the redo branch. -/
def stC9 : State :=
  { stBase with newCoordinatorSet := true, previousRoundValid := true, newMaci := true }

/-- The storage `stC9` reaches after `witnessQuit()` (by witness `5`) followed
by `transferMatchingFunds()` (by owner `1`): the redo branch ran, so all three
flags are cleared, the witness slot is zeroed and `NewMaciRequired` was
emitted. -/
def stC9final : State :=
  { stC9 with
    witness := 0
    newMaci := false
    newCoordinatorSet := false
    previousRoundValid := false
    events := stC9.events ++ [Event.WitnessTransferred 0, Event.NewMaciRequired] }

/-- `stC9` without the pending coordinator change: the state family of the
amended C9 statement. -/
def stC9b : State := { stC9 with newCoordinatorSet := false }

/-- `stBase` in the finalization-ready flag combination. -/
def stC10 : State := { stBase with newMaci := true, previousRoundValid := true }

/-- One externally callable operation, with its caller and, where the source
reads `block.number`, the ledger clock at call time. -/
inductive Op
  | endRound (blockNumber : Nat)
  | setMACI (sender m : Nat)
  | transferMatchingFunds (sender : Nat)
  | setCoordinator (sender c blockNumber : Nat)
  | setWitness (sender w : Nat)
  | setRoundDuration (sender d : Nat)
  | coordinatorQuit (sender blockNumber : Nat)
  | witnessQuit (sender : Nat)
  | transferOwnership (sender o : Nat)
  | renounceOwnership (sender : Nat)
  deriving DecidableEq, Repr

/-- Small-step semantics: the state transition of each entry point (the
return value of `transferMatchingFunds` is dropped here). -/
def step (s : State) : Op → Except Err State
  | Op.endRound b => endRound s b
  | Op.setMACI x m => setMACI s x m
  | Op.transferMatchingFunds x => (transferMatchingFunds s x).map Prod.fst
  | Op.setCoordinator x c b => setCoordinator s x c b
  | Op.setWitness x w => setWitness s x w
  | Op.setRoundDuration x d => setRoundDuration s x d
  | Op.coordinatorQuit x b => coordinatorQuit s x b
  | Op.witnessQuit x => witnessQuit s x
  | Op.transferOwnership x o => transferOwnership s x o
  | Op.renounceOwnership x => renounceOwnership s x

/-- C1: whenever the coordinator is non-null and `newCoordinatorSet` is true,
`transferMatchingFunds()` (called by the owner) takes the redo branch: it
clears all three flags, changes nothing else (in particular moves no funds —
the source's fund-recovery step is an unimplemented TODO), emits the
redo-required `NewMaciRequired` notification and returns `false`, regardless
of the values of `newMaci` and `previousRoundValid`. -/
theorem C1_redo_branch (s : State) (sender : Nat)
    (hs : sender = s.owner) (hc : s.coordinator ≠ 0) (hn : s.newCoordinatorSet = true) :
    transferMatchingFunds s sender =
      Except.ok ({ s with
        newCoordinatorSet := false
        newMaci := false
        previousRoundValid := false
        events := s.events ++ [Event.NewMaciRequired] }, false) := by
  simp [transferMatchingFunds, hs, hc, hn]

/-- C1 witness: the redo branch at a concrete state. -/
theorem C1_redo_branch_witness :
    transferMatchingFunds { stBase with newCoordinatorSet := true } 1 =
      Except.ok ({ { stBase with newCoordinatorSet := true } with
        newCoordinatorSet := false
        newMaci := false
        previousRoundValid := false
        events := { stBase with newCoordinatorSet := true }.events ++
          [Event.NewMaciRequired] }, false) :=
  C1_redo_branch { stBase with newCoordinatorSet := true } 1 rfl (by decide) rfl

/-- C2: whenever the coordinator is non-null, `newCoordinatorSet` is false
and both `newMaci` and `previousRoundValid` hold, `transferMatchingFunds()`
(called by the owner) takes the finalize branch: it clears `newMaci`, leaves
`previousRoundValid` and `newCoordinatorSet` (and everything else) unchanged,
emits `RoundFinalized` referencing the previous round handle and returns
`true`. -/
theorem C2_finalize_branch (s : State) (sender : Nat)
    (hs : sender = s.owner) (hc : s.coordinator ≠ 0) (hn : s.newCoordinatorSet = false)
    (hm : s.newMaci = true) (hv : s.previousRoundValid = true) :
    transferMatchingFunds s sender =
      Except.ok ({ s with
        events := s.events ++ [Event.RoundFinalized s.previousRound]
        newMaci := false }, true) := by
  simp [transferMatchingFunds, hs, hc, hn, hm, hv]

/-- C2 witness: the finalize branch at a concrete state. -/
theorem C2_finalize_branch_witness :
    transferMatchingFunds { stBase with newMaci := true, previousRoundValid := true } 1 =
      Except.ok ({ { stBase with newMaci := true, previousRoundValid := true } with
        events := { stBase with newMaci := true, previousRoundValid := true }.events ++
          [Event.RoundFinalized
            { stBase with newMaci := true, previousRoundValid := true }.previousRound]
        newMaci := false }, true) :=
  C2_finalize_branch { stBase with newMaci := true, previousRoundValid := true } 1
    rfl (by decide) rfl rfl rfl

/-- C3: for an owner call, `transferMatchingFunds()` reverts with
`noCoordinator` exactly when the coordinator is null, and reverts with
`invalidTransferConditions` exactly when the coordinator is non-null,
`newCoordinatorSet` is false and not both `newMaci` and `previousRoundValid`
hold.  In this embedding a revert produces `Except.error` and no successor
state, so a failing call leaves the flags and all other contract storage
untouched by construction. -/
theorem C3_failure_conditions (s : State) (sender : Nat) (hs : sender = s.owner) :
    (transferMatchingFunds s sender = Except.error Err.noCoordinator ↔
      s.coordinator = 0) ∧
    (transferMatchingFunds s sender = Except.error Err.invalidTransferConditions ↔
      (s.coordinator ≠ 0 ∧ s.newCoordinatorSet = false ∧
        ¬(s.newMaci = true ∧ s.previousRoundValid = true))) := by
  subst hs
  by_cases h1 : s.coordinator = 0 <;>
    by_cases h2 : s.newCoordinatorSet = true <;>
      by_cases h3 : s.newMaci = true ∧ s.previousRoundValid = true <;>
        simp [transferMatchingFunds, h1, h2, h3]

/-- C3 witness: at `stBase` (coordinator non-null, all flags false) the owner
call reverts with `invalidTransferConditions` and not with `noCoordinator`. -/
theorem C3_failure_conditions_witness :
    (transferMatchingFunds stBase 1 = Except.error Err.noCoordinator ↔
      stBase.coordinator = 0) ∧
    (transferMatchingFunds stBase 1 = Except.error Err.invalidTransferConditions ↔
      (stBase.coordinator ≠ 0 ∧ stBase.newCoordinatorSet = false ∧
        ¬(stBase.newMaci = true ∧ stBase.previousRoundValid = true))) :=
  C3_failure_conditions stBase 1 rfl

/-- C4: `endRound()` reverts with `invalidEndRoundConditions` exactly when
the ledger clock is below the deadline, `newCoordinatorSet` is false and the
coordinator is non-null; in every other state it succeeds, deploying a fresh
round handle, shifting `previous := current`, installing the new handle as
current, emitting `NewRound` and setting the deadline to
`block.number + duration` (reduced modulo the `uint256` word size, which is
the source's unchecked addition). -/
theorem C4_endRound_conditions (s : State) (blk : Nat) :
    (endRound s blk = Except.error Err.invalidEndRoundConditions ↔
      (blk < s.roundEndBlockNumber ∧ s.newCoordinatorSet = false ∧ s.coordinator ≠ 0)) ∧
    (¬(blk < s.roundEndBlockNumber ∧ s.newCoordinatorSet = false ∧ s.coordinator ≠ 0) →
      endRound s blk = Except.ok { s with
        nextRoundId := s.nextRoundId + 1
        previousRound := s.currentRound
        currentRound := s.nextRoundId
        events := s.events ++ [Event.NewRound s.nextRoundId]
        roundEndBlockNumber := (blk + s.duration) % WORD }) := by
  have hiff : (s.roundEndBlockNumber ≤ blk ∨ s.newCoordinatorSet = true ∨ s.coordinator = 0) ↔
      ¬(blk < s.roundEndBlockNumber ∧ s.newCoordinatorSet = false ∧ s.coordinator ≠ 0) := by
    rw [not_and_or, not_and_or]
    simp [Nat.not_lt, Bool.not_eq_false, or_assoc]
  by_cases hC : s.roundEndBlockNumber ≤ blk ∨ s.newCoordinatorSet = true ∨ s.coordinator = 0
  · have hok : endRound s blk = Except.ok { s with
        nextRoundId := s.nextRoundId + 1
        previousRound := s.currentRound
        currentRound := s.nextRoundId
        events := s.events ++ [Event.NewRound s.nextRoundId]
        roundEndBlockNumber := (blk + s.duration) % WORD } := by
      simp [endRound, hC]
    refine ⟨⟨fun heq => ?_, fun hcond => absurd hcond (hiff.mp hC)⟩, fun _ => hok⟩
    exact Except.noConfusion (hok.symm.trans heq)
  · have herr : endRound s blk = Except.error Err.invalidEndRoundConditions := by
      simp only [endRound, if_neg hC]
    have hcond : blk < s.roundEndBlockNumber ∧ s.newCoordinatorSet = false ∧
        s.coordinator ≠ 0 := not_not.mp ((not_iff_not.mpr hiff).mp hC)
    exact ⟨⟨fun _ => hcond, fun _ => herr⟩, fun h => absurd (hiff.mpr h) hC⟩

/-- C4 witness: at `stBase` with a future deadline the call reverts; after
clearing the deadline it succeeds with the stated effects. -/
theorem C4_endRound_conditions_witness :
    (endRound { stBase with roundEndBlockNumber := 10 } 4 =
        Except.error Err.invalidEndRoundConditions ↔
      (4 < { stBase with roundEndBlockNumber := 10 }.roundEndBlockNumber ∧
        { stBase with roundEndBlockNumber := 10 }.newCoordinatorSet = false ∧
        { stBase with roundEndBlockNumber := 10 }.coordinator ≠ 0)) ∧
    (¬(4 < { stBase with roundEndBlockNumber := 10 }.roundEndBlockNumber ∧
        { stBase with roundEndBlockNumber := 10 }.newCoordinatorSet = false ∧
        { stBase with roundEndBlockNumber := 10 }.coordinator ≠ 0) →
      endRound { stBase with roundEndBlockNumber := 10 } 4 =
        Except.ok { { stBase with roundEndBlockNumber := 10 } with
          nextRoundId := { stBase with roundEndBlockNumber := 10 }.nextRoundId + 1
          previousRound := { stBase with roundEndBlockNumber := 10 }.currentRound
          currentRound := { stBase with roundEndBlockNumber := 10 }.nextRoundId
          events := { stBase with roundEndBlockNumber := 10 }.events ++
            [Event.NewRound { stBase with roundEndBlockNumber := 10 }.nextRoundId]
          roundEndBlockNumber :=
            (4 + { stBase with roundEndBlockNumber := 10 }.duration) % WORD }) :=
  C4_endRound_conditions { stBase with roundEndBlockNumber := 10 } 4

/-- C5: every successful state transition that changes the current round —
whichever entry point caused it (`endRound` directly, `setCoordinator` or
`coordinatorQuit` internally, or any other operation) — sets the previous
round handle to exactly the value the current round handle held before, and
installs as current the handle freshly deployed by that transition. -/
theorem C5_no_skipped_rounds (s : State) (op : Op) (s' : State)
    (h : step s op = Except.ok s') (hchg : s'.currentRound ≠ s.currentRound) :
    s'.previousRound = s.currentRound ∧ s'.currentRound = s.nextRoundId ∧
      s'.nextRoundId = s.nextRoundId + 1 := by
  cases op <;>
    simp only [step, endRound, setMACI, transferMatchingFunds, setCoordinator, setWitness,
      setRoundDuration, coordinatorQuit, witnessQuit, transferOwnership,
      renounceOwnership] at h <;>
    (repeat' split at h) <;>
    (try simp only [Except.map, Except.ok.injEq] at h) <;>
    (try subst h) <;>
    simp_all

/-- C5 witness: a direct `endRound` at `stBase` deploys handle `3`. -/
theorem C5_no_skipped_rounds_witness :
    ({ stBase with
      nextRoundId := stBase.nextRoundId + 1
      previousRound := stBase.currentRound
      currentRound := stBase.nextRoundId
      events := stBase.events ++ [Event.NewRound stBase.nextRoundId]
      roundEndBlockNumber := (0 + stBase.duration) % WORD } : State).previousRound =
        stBase.currentRound ∧
    ({ stBase with
      nextRoundId := stBase.nextRoundId + 1
      previousRound := stBase.currentRound
      currentRound := stBase.nextRoundId
      events := stBase.events ++ [Event.NewRound stBase.nextRoundId]
      roundEndBlockNumber := (0 + stBase.duration) % WORD } : State).currentRound =
        stBase.nextRoundId ∧
    ({ stBase with
      nextRoundId := stBase.nextRoundId + 1
      previousRound := stBase.currentRound
      currentRound := stBase.nextRoundId
      events := stBase.events ++ [Event.NewRound stBase.nextRoundId]
      roundEndBlockNumber := (0 + stBase.duration) % WORD } : State).nextRoundId =
        stBase.nextRoundId + 1 :=
  C5_no_skipped_rounds stBase (Op.endRound 0) _ rfl (by decide)

/-- C6 counterexample: a fresh deployment (deployer `1`, coordinator `2`,
block `0`) leaves `previousRound = 1`, a non-null handle — not null/empty
as the claim states.  The constructor performs two round transitions, not
one: `setCoordinator` itself calls `endRound()`, and the constructor then
calls `endRound()` a second time. -/
theorem C6_counterexample :
    Except.map State.previousRound (constructorRun 1 2 0) = Except.ok 1 ∧ (1 : Nat) ≠ 0 :=
  ⟨rfl, by decide⟩

/-- C6 amended: after the constructor runs with any deployer, coordinator
address and deployment block, the current round handle is the non-null
handle `2` and the previous round handle is the non-null handle `1`: the
bootstrap performs exactly two round transitions (one triggered inside
`setCoordinator`, one by the constructor's explicit `endRound()`), so
`previous` is the first deployed round, not the null handle. -/
theorem C6_constructor_two_transitions (deployer c blk : Nat) :
    constructorRun deployer c blk = Except.ok
      { owner := deployer
        coordinator := c
        maci := 0
        token := 0
        witness := 0
        currentRound := 2
        previousRound := 1
        newMaci := false
        previousRoundValid := false
        newCoordinatorSet := true
        duration := 0
        roundEndBlockNumber := blk % WORD
        maciByRound := []
        nextRoundId := 3
        events := [Event.OwnershipTransferred 0 deployer, Event.CoordinatorTransferred c,
          Event.NewRound 1, Event.NewRound 2] } ∧
    (2 : Nat) ≠ 0 ∧ (1 : Nat) ≠ 0 := by
  refine ⟨?_, by decide, by decide⟩
  simp [constructorRun, setCoordinator, initState, endRound, Nat.zero_le]

/-- C7 counterexample: at a concrete state with witness `5` and an empty
round-to-identifier mapping, `setMACI(7)` by the witness succeeds, yet
`getMaci(currentRound)` afterwards returns the null identifier `0`, not `7`:
the source never writes the `maciByRound` mapping. -/
theorem C7_counterexample :
    Except.map (fun s => getMaci s s.currentRound) (setMACI stBase 5 7) = Except.ok 0 ∧
      (0 : Nat) ≠ 7 :=
  ⟨rfl, by decide⟩

/-- C7 amended: every witness call to `setMACI` overwrites the stored
computation identifier, sets `newMaci := true` and emits `MaciSet`, but does
not record the identifier against the current round: the `maciByRound`
mapping (and every other field) is left unchanged, so `getMaci` still
answers from the untouched mapping. -/
theorem C7_setMACI_no_mapping_write (s : State) (sender m : Nat)
    (hs : sender = s.witness) :
    setMACI s sender m = Except.ok { s with
      maci := m
      newMaci := true
      events := s.events ++ [Event.MaciSet m] } := by
  simp [setMACI, hs]

/-- C7 witness: the amended statement at a concrete state. -/
theorem C7_setMACI_no_mapping_write_witness :
    setMACI stBase 5 7 = Except.ok { stBase with
      maci := 7
      newMaci := true
      events := stBase.events ++ [Event.MaciSet 7] } :=
  C7_setMACI_no_mapping_write stBase 5 7 rfl

/-- C8: the deadline update wraps.  At a state with `duration = 2` and a
cleared deadline, `endRound()` at the maximal block number `2^256 - 1`
succeeds and stores the wrapped deadline `1` — it neither saturates nor
fails with an overflow error, contradicting the claim (the source's own
comment marks the unchecked addition as a `TODO: Use SafeMath`). -/
theorem C8_deadline_wraps :
    Except.map State.roundEndBlockNumber (endRound { stBase with duration := 2 } (WORD - 1)) =
      Except.ok 1 ∧ (1 : Nat) < WORD - 1 := by
  constructor
  · rfl
  · decide

/-- C9 counterexample: at the concrete state `stC9` (coordinator `3`
non-null, `newCoordinatorSet = true`, `previousRoundValid = true`),
`witnessQuit()` by witness `5` followed by `transferMatchingFunds()` by
owner `1` succeeds through the redo branch, returning `false` — it does not
fail with `invalidTransferConditions`, so the claim's "for every state"
reject-branch assertion is false. -/
theorem C9_counterexample :
    (witnessQuit stC9 5).bind (fun s1 => transferMatchingFunds s1 1) =
      Except.ok (stC9final, false) := rfl

/-- C9 amended: whenever the coordinator is non-null and
`newCoordinatorSet` is false, `witnessQuit()` by the witness followed by
`transferMatchingFunds()` by the owner with `previousRoundValid = true`
fails with `invalidTransferConditions`; moreover after any `witnessQuit()`
the next `transferMatchingFunds()` can never take the finalize branch (never
returns `true`), whatever the sender and flags, because `witnessQuit`
cleared `newMaci`. -/
theorem C9_quit_blocks_finalize (s : State) (so : Nat) (s1 : State)
    (hq : witnessQuit s s.witness = Except.ok s1) :
    ((s.coordinator ≠ 0 → s.newCoordinatorSet = false → s.previousRoundValid = true →
        so = s.owner →
        transferMatchingFunds s1 so = Except.error Err.invalidTransferConditions) ∧
      (∀ s2, transferMatchingFunds s1 so ≠ Except.ok (s2, true))) := by
  have hs1 : s1 = { s with
      witness := 0
      events := s.events ++ [Event.WitnessTransferred 0]
      newMaci := false } := by
    simpa [witnessQuit] using hq.symm
  subst hs1
  constructor
  · intro hc hn _ hso
    simp [transferMatchingFunds, hso, hc, hn]
  · intro s2
    by_cases h1 : so = s.owner <;>
      by_cases h2 : s.coordinator = 0 <;>
        by_cases h3 : s.newCoordinatorSet = true <;>
          simp [transferMatchingFunds, h1, h2, h3]

/-- C9 witness: the amended statement at the concrete state `stC9b`. -/
theorem C9_quit_blocks_finalize_witness :
    ((stC9b.coordinator ≠ 0 → stC9b.newCoordinatorSet = false →
        stC9b.previousRoundValid = true → (1 : Nat) = stC9b.owner →
        transferMatchingFunds { stC9b with
            witness := 0
            events := stC9b.events ++ [Event.WitnessTransferred 0]
            newMaci := false } 1 =
          Except.error Err.invalidTransferConditions) ∧
      (∀ s2, transferMatchingFunds { stC9b with
          witness := 0
          events := stC9b.events ++ [Event.WitnessTransferred 0]
          newMaci := false } 1 ≠ Except.ok (s2, true))) :=
  C9_quit_blocks_finalize stC9b 1 _ rfl

/-- C10: `setWitness` by the owner changes only the witness identity (and
appends the `WitnessTransferred` event): `newMaci`, `newCoordinatorSet`,
`previousRoundValid`, the round handles, the duration and the deadline are
all untouched — so, unlike `witnessQuit`, replacing the witness leaves a
pending attestation active: if the flags authorized finalization before the
replacement, `transferMatchingFunds` still finalizes (returns `true`)
afterwards. -/
theorem C10_setWitness_frame (s : State) (sender w : Nat) (hs : sender = s.owner) :
    setWitness s sender w = Except.ok { s with
      witness := w
      events := s.events ++ [Event.WitnessTransferred w] } ∧
    (s.coordinator ≠ 0 → s.newCoordinatorSet = false → s.newMaci = true →
      s.previousRoundValid = true →
      Except.map (fun p => p.2)
        (transferMatchingFunds { s with
          witness := w
          events := s.events ++ [Event.WitnessTransferred w] } s.owner) =
        Except.ok true) := by
  constructor
  · simp [setWitness, hs]
  · intro hc hn hm hv
    simp [transferMatchingFunds, Except.map, hc, hn, hm, hv]

/-- C10 witness: the frame statement at the concrete finalization-ready
state `stC10`. -/
theorem C10_setWitness_frame_witness :
    setWitness stC10 1 7 =
      Except.ok { stC10 with
        witness := 7
        events := stC10.events ++ [Event.WitnessTransferred 7] } ∧
    (stC10.coordinator ≠ 0 → stC10.newCoordinatorSet = false → stC10.newMaci = true →
      stC10.previousRoundValid = true →
      Except.map (fun p => p.2)
        (transferMatchingFunds { stC10 with
          witness := 7
          events := stC10.events ++ [Event.WitnessTransferred 7] } stC10.owner) =
        Except.ok true) :=
  C10_setWitness_frame stC10 1 7 rfl

end FRF
